import Mathlib

/-!
Shallow embedding of the Grand Prix ticket-booking program (`hhh.py`):
the ticket hierarchy with its pricing rules, users and admins, the order
state machine, and the repository (`BookingSystem`) with its persistence
round-trip.  Python floats are modelled by exact rationals (all constants
involved — 1.2, 0.9, 0.8, 0.7 — and the concrete prices in the spec are
exactly representable, and the sample computations of the spec are exact in
binary floating point as well).  Dates are modelled as integers ordered in
the usual way; only comparisons of dates matter to the program.
-/

namespace GrandPrix

/-- Dates are totally ordered; the program only ever compares them. -/
abbrev Date := Int

/-- Race category slot of a `SingleRaceTicket`.  The Python enum has the
three members PREMIUM, STANDARD, ECONOMY; since Python does not enforce
the `RaceCategory` annotation, a caller can pass any value, which the
constructor stores unchecked.  The `other` constructor represents such a
non-enum value. -/
inductive RaceCategory where
  | PREMIUM
  | STANDARD
  | ECONOMY
  | other (tag : String)
deriving DecidableEq

/-- Order status enum from the source. -/
inductive OrderStatus where
  | PENDING
  | CONFIRMED
  | CANCELLED
deriving DecidableEq

/-- Payment method enum from the source. -/
inductive PaymentMethod where
  | CREDIT_CARD
  | DEBIT_CARD
  | DIGITAL_WALLET
deriving DecidableEq

/-- Variant-specific attributes of the two concrete ticket classes. -/
inductive TicketKind where
  | singleRace (race_name : String) (race_category : RaceCategory)
  | season (season_year : Int) (included_races : List String)
      (race_dates : List Date)
deriving DecidableEq

/-- A ticket: the common attributes of the abstract `Ticket` class plus
the variant data.  `created_by` stores the username of the creating admin
(a weak back-reference in the source). -/
structure Ticket where
  ticket_id : String
  price : ℚ
  event_date : Date
  venue_section : String
  is_used : Bool
  created_by : Option String
  kind : TicketKind
deriving DecidableEq

/-- Constructor `SingleRaceTicket.__init__`: stores every argument
unchecked (the base `Ticket.__init__` performs no validation either) and
initialises `is_used` to false and `created_by` to `None`. -/
def SingleRaceTicket.make (ticket_id : String) (price : ℚ) (event_date : Date)
    (venue_section : String) (race_name : String)
    (race_category : RaceCategory) : Ticket :=
  { ticket_id, price, event_date, venue_section, is_used := false,
    created_by := none, kind := .singleRace race_name race_category }

/-- Constructor `SeasonTicket.__init__`: stores every argument unchecked;
`event_date` is the season start date. -/
def SeasonTicket.make (ticket_id : String) (price : ℚ) (event_date : Date)
    (venue_section : String) (season_year : Int)
    (included_races : List String) (race_dates : List Date) : Ticket :=
  { ticket_id, price, event_date, venue_section, is_used := false,
    created_by := none, kind := .season season_year included_races race_dates }

/-- `Ticket.set_price`: rejects a negative price with `ValueError`,
otherwise stores the new price.  On error the ticket is unchanged (the
exception is raised before the assignment). -/
def Ticket.set_price (t : Ticket) (price : ℚ) : Except String Ticket :=
  if price < 0 then .error "Price cannot be negative"
  else .ok { t with price }

/-- `SeasonTicket.set_included_races`: replaces the included-races
sequence (meaningful on season tickets; other kinds are untouched). -/
def Ticket.set_included_races (t : Ticket) (included_races : List String) :
    Ticket :=
  match t.kind with
  | .season y _ rd => { t with kind := .season y included_races rd }
  | _ => t

/-- Race category of a single-race ticket (`get_race_category`). -/
def Ticket.get_race_category (t : Ticket) : Option RaceCategory :=
  match t.kind with
  | .singleRace _ c => some c
  | _ => none

/-- `calculate_price`: dispatches on the concrete class.
`SingleRaceTicket` marks up Premium by 20 percent, leaves Standard alone,
and discounts everything else (the `else` branch, intended for Economy)
by 10 percent.  `SeasonTicket` discounts by the number of included races:
30 percent for 15 or more, 20 percent for 10 or more, 10 percent for 5 or
more, none otherwise. -/
def Ticket.calculate_price (t : Ticket) : ℚ :=
  match t.kind with
  | .singleRace _ c =>
    match c with
    | .PREMIUM => t.price * 1.2
    | .STANDARD => t.price
    | _ => t.price * 0.9
  | .season _ races _ =>
    if races.length ≥ 15 then t.price * 0.7
    else if races.length ≥ 10 then t.price * 0.8
    else if races.length ≥ 5 then t.price * 0.9
    else t.price

/-- A user account.  `orders` holds the ids of the orders of the user (the
source keeps direct object references; ids model those references, which
the repository resolves).  The constructor stores every argument
unchecked. -/
structure User where
  user_id : String
  username : String
  password : String
  email : String
  phone_number : Option String
  orders : List String
deriving DecidableEq

/-- Constructor `User.__init__`: no validation, empty order history. -/
def User.init (user_id username password email : String)
    (phone_number : Option String) : User :=
  { user_id, username, password, email, phone_number, orders := [] }

/-- `User.set_password`: rejects passwords shorter than 6 characters with
`ValueError`; on error the stored password is unchanged. -/
def User.set_password (u : User) (password : String) : Except String User :=
  if password.length < 6 then
    .error "Password must be at least 6 characters long"
  else .ok { u with password }

/-- `User.set_email`: rejects an email not containing the at sign with
`ValueError`; on error the stored email is unchanged.  The Python
membership test of a single character in a string is character
membership in the character sequence. -/
def User.set_email (u : User) (email : String) : Except String User :=
  if email.data.contains '@' then .ok { u with email }
  else .error "Invalid email format"

/-- `User.add_order`: appends an order reference to the history. -/
def User.add_order (u : User) (order_id : String) : User :=
  { u with orders := u.orders ++ [order_id] }

/-- An admin account (`Admin` is-a `User` in the source). -/
structure Admin where
  user : User
  admin_level : Int
  department : String
deriving DecidableEq

/-- An order: composition of tickets with a lifecycle status, a derived
total amount and a reference to the owning user. -/
structure Order where
  order_id : String
  order_date : Date
  status : OrderStatus
  total_amount : ℚ
  payment_method : Option PaymentMethod
  tickets : List Ticket
  user_id : Option String
deriving DecidableEq

/-- Constructor `Order.__init__` with the default arguments used by
`create_order`: Pending status, zero total, no payment method, no
tickets, no user reference. -/
def Order.init (order_id : String) (order_date : Date) : Order :=
  { order_id, order_date, status := .PENDING, total_amount := 0,
    payment_method := none, tickets := [], user_id := none }

/-- `Order.calculate_total`: sum of `calculate_price` over the current
tickets. -/
def Order.calculate_total (o : Order) : ℚ :=
  (o.tickets.map Ticket.calculate_price).sum

/-- `Order.add_ticket`: raises `ValueError` if the order is Confirmed;
otherwise appends the ticket and recomputes the stored total. -/
def Order.add_ticket (o : Order) (t : Ticket) : Except String Order :=
  if o.status = OrderStatus.CONFIRMED then
    .error "Cannot add tickets to a confirmed order"
  else
    let o1 := { o with tickets := o.tickets ++ [t] }
    .ok { o1 with total_amount := o1.calculate_total }

/-- Removal of the first ticket with the given id, mirroring the indexed
scan and `pop(i)` in `Order.remove_ticket`; `none` when no ticket
matches. -/
def removeFirstTicket (ticket_id : String) : List Ticket → Option (List Ticket)
  | [] => none
  | t :: ts =>
    if t.ticket_id = ticket_id then some ts
    else (removeFirstTicket ticket_id ts).map (t :: ·)

/-- `Order.remove_ticket`: returns false (unchanged) if the order is
Confirmed or no ticket matches; otherwise drops the first matching
ticket, recomputes the stored total and returns true. -/
def Order.remove_ticket (o : Order) (ticket_id : String) : Bool × Order :=
  if o.status = OrderStatus.CONFIRMED then (false, o)
  else
    match removeFirstTicket ticket_id o.tickets with
    | some ts =>
      let o1 := { o with tickets := ts }
      (true, { o1 with total_amount := o1.calculate_total })
    | none => (false, o)

/-- `Order.confirm_order`: fails on an empty ticket list or an unset
payment method (Python truthiness: the enum members are truthy, `None` is
falsy); otherwise sets the status to Confirmed and returns true. -/
def Order.confirm_order (o : Order) : Bool × Order :=
  if o.tickets = [] then (false, o)
  else if o.payment_method = none then (false, o)
  else (true, { o with status := OrderStatus.CONFIRMED })

/-- `Order.cancel_order`: fails if any ticket is used, then if any
ticket has an event date strictly before today; otherwise sets the status
to Cancelled and returns true.  `today` models `date.today()`. -/
def Order.cancel_order (o : Order) (today : Date) : Bool × Order :=
  if o.tickets.any (fun t => t.is_used) then (false, o)
  else if o.tickets.any (fun t => decide (t.event_date < today)) then
    (false, o)
  else (true, { o with status := OrderStatus.CANCELLED })

/-- In-place mutation of the i-th ticket object shared with the order:
orders in the source hold references to ticket objects, so an external
`set_price` or `set_included_races` on such an object is, from the
point of view of the order, a replacement of that list entry that goes
through none of the methods of the order itself. -/
def Order.mutateTicket (o : Order) (i : ℕ) (t : Ticket) : Order :=
  { o with tickets := o.tickets.set i t }

/-- The repository (`BookingSystem`): four keyed collections, modelled as
insertion-ordered association lists mirroring Python dicts (users and
admins keyed by username, tickets by ticket id, orders by order id).
Logging and the data directory are side channels with no bearing on the
collections and are not modelled. -/
structure BookingSystem where
  name : String
  version : String
  users : List (String × User)
  admins : List (String × Admin)
  tickets : List (String × Ticket)
  orders : List (String × Order)
deriving DecidableEq

/-- Durable storage: one optional pickled object per collection (`none`
models an absent file).  `pickle.dump` / `pickle.load` are modelled as
storing and retrieving the value itself. -/
structure DataFiles where
  users : Option (List (String × User))
  admins : Option (List (String × Admin))
  tickets : Option (List (String × Ticket))
  orders : Option (List (String × Order))
deriving DecidableEq

/-- `BookingSystem.save_data`: writes all four collections to their
files. -/
def BookingSystem.save_data (bs : BookingSystem) : DataFiles :=
  { users := some bs.users, admins := some bs.admins,
    tickets := some bs.tickets, orders := some bs.orders }

/-- `BookingSystem.create_user`: rejects a duplicate username, otherwise
constructs the user (no argument validation) and inserts it. -/
def BookingSystem.create_user (bs : BookingSystem)
    (user_id username password email : String)
    (phone_number : Option String) : Except String (BookingSystem × User) :=
  if (bs.users.lookup username).isSome then
    .error "Username already exists"
  else
    let user := User.init user_id username password email phone_number
    .ok ({ bs with users := bs.users ++ [(username, user)] }, user)

/-- `BookingSystem.create_admin`: rejects a duplicate username, otherwise
constructs the admin and inserts it into both the user and the admin
mapping. -/
def BookingSystem.create_admin (bs : BookingSystem)
    (user_id username password email : String) (admin_level : Int)
    (department : String) (phone_number : Option String) :
    Except String (BookingSystem × Admin) :=
  if (bs.users.lookup username).isSome then
    .error "Username already exists"
  else
    let admin : Admin :=
      { user := User.init user_id username password email phone_number,
        admin_level, department }
    .ok ({ bs with
           users := bs.users ++ [(username, admin.user)],
           admins := bs.admins ++ [(username, admin)] }, admin)

/-- `BookingSystem.load_data`: restores each collection whose file
exists; when the admins file is absent and no admins are in memory,
seeds the hardcoded default admin (which `create_admin` also puts into
the user mapping). -/
def BookingSystem.load_data (bs : BookingSystem) (files : DataFiles) :
    BookingSystem :=
  let bs1 := match files.users with
    | some us => { bs with users := us }
    | none => bs
  let bs2 := match files.admins with
    | some ad => { bs1 with admins := ad }
    | none =>
      if bs1.admins = [] then
        match bs1.create_admin "ADM-001" "admin" "admin123"
            "admin@grandprix.com" 3 "System Administration" none with
        | .ok (b, _) => b
        | .error _ => bs1
      else bs1
  let bs3 := match files.tickets with
    | some ts => { bs2 with tickets := ts }
    | none => bs2
  match files.orders with
  | some os => { bs3 with orders := os }
  | none => bs3

/-- `BookingSystem.create_order`: allocates the id
`"ORD-" ++ (order count + 1)`, builds a Pending order dated today, sets
its user reference to the USERNAME of the given user, inserts it into
the order mapping and appends it to the order history of the user.  The
source mutates the shared user object; the model returns the updated
user and updates its entry in the user mapping (the dict holds the same
object). -/
def BookingSystem.create_order (bs : BookingSystem) (today : Date)
    (user : User) : BookingSystem × Order × User :=
  let order_id := "ORD-" ++ toString (bs.orders.length + 1)
  let order : Order := { Order.init order_id today with
    user_id := some user.username }
  let user1 := user.add_order order_id
  let users1 := bs.users.map
    (fun p => if p.1 = user.username then (p.1, user1) else p)
  ({ bs with
     orders := bs.orders ++ [(order_id, order)],
     users := users1 },
   order, user1)

/-- An order-mutation step: one `add_ticket` or `remove_ticket` call.
`applyOrderOp` is the state after the call, whether it succeeded or not
(a raised `ValueError` and a false return both leave the order as it
was). -/
inductive OrderOp where
  | add (t : Ticket)
  | remove (ticket_id : String)

/-- Effect of one `add_ticket` / `remove_ticket` call on the order. -/
def applyOrderOp (o : Order) : OrderOp → Order
  | .add t =>
    match o.add_ticket t with
    | .ok o1 => o1
    | .error _ => o
  | .remove tid => (o.remove_ticket tid).2

/-- Effect of a sequence of `add_ticket` / `remove_ticket` calls. -/
def applyOrderOps (ops : List OrderOp) (o : Order) : Order :=
  ops.foldl applyOrderOp o

/-- Ticket used by several concrete examples: a Standard single-race
ticket, base price 200, event date 10. -/
def sampleTicket : Ticket :=
  SingleRaceTicket.make "TKT-1" 200 10 "Main" "GP" RaceCategory.STANDARD

/-- A confirmable order: one ticket and a payment method. -/
def confirmableOrder : Order :=
  { Order.init "ORD-1" 0 with
    tickets := [sampleTicket],
    payment_method := some PaymentMethod.CREDIT_CARD }

/-- A Confirmed order holding one unused ticket dated 10. -/
def confirmedOrder : Order :=
  { Order.init "ORD-1" 0 with
    status := OrderStatus.CONFIRMED,
    tickets := [sampleTicket] }

/-- An order holding a used ticket. -/
def usedTicketOrder : Order :=
  { Order.init "ORD-2" 0 with
    tickets := [{ sampleTicket with is_used := true }] }

/-- Empty repository used by the concrete repository examples. -/
def emptySystem : BookingSystem :=
  { name := "Grand Prix Experience", version := "1.0",
    users := [], admins := [], tickets := [], orders := [] }

/-- The sample user of the driver program: user id USR-001, username
john_doe. -/
def johnDoe : User :=
  User.init "USR-001" "john_doe" "password123" "john@example.com" none

/-- A season ticket with base price 1000 and five included races. -/
def seasonFive : Ticket :=
  SeasonTicket.make "TKT-S" 1000 0 "VIP" 2025 (List.replicate 5 "Race") []

/-- The order obtained by adding `seasonFive` to a fresh order: its
stored total is 900. -/
def seasonOrder : Order :=
  applyOrderOps [OrderOp.add seasonFive] (Order.init "ORD-1" 0)

/-- `seasonOrder` after the shared ticket object is mutated in place by
`set_included_races` to fifteen races, without going through
`add_ticket` / `remove_ticket`. -/
def seasonOrderGrown : Order :=
  seasonOrder.mutateTicket 0
    (seasonFive.set_included_races (List.replicate 15 "Race"))

/-- `seasonOrder` after the shared ticket object is mutated in place by
a successful `set_price 2000`. -/
def seasonOrderRepriced : Order :=
  seasonOrder.mutateTicket 0
    (match seasonFive.set_price 2000 with
     | .ok t => t
     | .error _ => seasonFive)

/-- C1: `confirm_order` succeeds and sets the status to Confirmed exactly
when the ticket list is non-empty and a payment method has been set; on
failure the order (in particular its status) is unchanged.  The current
status plays no role: the quantification is over every order, whatever
its status. -/
theorem confirm_order_spec (o : Order) :
    ((o.confirm_order).1 = true ↔
      o.tickets ≠ [] ∧ o.payment_method ≠ none) ∧
    ((o.confirm_order).1 = true →
      (o.confirm_order).2 = { o with status := OrderStatus.CONFIRMED }) ∧
    ((o.confirm_order).1 = false → (o.confirm_order).2 = o) := by
  unfold Order.confirm_order
  by_cases h1 : o.tickets = [] <;> by_cases h2 : o.payment_method = none <;>
    simp [h1, h2]

/-- Witness for C1: the one-ticket order with a payment method confirms
to Confirmed; the fresh empty order fails and is unchanged. -/
theorem confirm_order_spec_witness :
    (confirmableOrder.confirm_order).2 =
      { confirmableOrder with status := OrderStatus.CONFIRMED } ∧
    ((Order.init "ORD-9" 0).confirm_order).2 = Order.init "ORD-9" 0 :=
  ⟨(confirm_order_spec confirmableOrder).2.1 rfl,
   (confirm_order_spec (Order.init "ORD-9" 0)).2.2 rfl⟩

/-- Helper for C2: the boolean result of `cancel_order` characterised by
the two ticket-based conditions. -/
theorem cancel_order_succeeds_iff (o : Order) (today : Date) :
    (o.cancel_order today).1 = true ↔
      (∀ t ∈ o.tickets, t.is_used = false) ∧
      (∀ t ∈ o.tickets, ¬ t.event_date < today) := by
  unfold Order.cancel_order
  constructor
  · intro h
    by_cases h1 : o.tickets.any (fun t => t.is_used) = true
    · rw [if_pos h1] at h
      exact absurd h (by simp)
    · by_cases h2 :
        o.tickets.any (fun t => decide (t.event_date < today)) = true
      · rw [if_neg h1, if_pos h2] at h
        exact absurd h (by simp)
      · refine ⟨fun t ht => ?_, fun t ht => ?_⟩
        · by_contra hc
          exact h1 (List.any_eq_true.mpr ⟨t, ht, by simpa using hc⟩)
        · intro hd
          exact h2 (List.any_eq_true.mpr ⟨t, ht, by simpa using hd⟩)
  · rintro ⟨hused, hdate⟩
    have h1 : o.tickets.any (fun t => t.is_used) = false := by
      rw [List.any_eq_false]
      intro t ht
      simp [hused t ht]
    have h2 : o.tickets.any (fun t => decide (t.event_date < today)) =
        false := by
      rw [List.any_eq_false]
      intro t ht
      simpa using hdate t ht
    rw [if_neg (by simp [h1]), if_neg (by simp [h2])]

/-- C2: `cancel_order` succeeds and sets the status to Cancelled exactly
when no ticket is used and no ticket has an event date strictly before
today; on failure the order is unchanged.  The last conjunct makes the
independence from the current status explicit: replacing the status by
any value does not change the outcome. -/
theorem cancel_order_spec (o : Order) (today : Date) :
    ((o.cancel_order today).1 = true ↔
      (∀ t ∈ o.tickets, t.is_used = false) ∧
      (∀ t ∈ o.tickets, ¬ t.event_date < today)) ∧
    ((o.cancel_order today).1 = true →
      (o.cancel_order today).2 = { o with status := OrderStatus.CANCELLED }) ∧
    ((o.cancel_order today).1 = false → (o.cancel_order today).2 = o) ∧
    (∀ s : OrderStatus,
      (Order.cancel_order { o with status := s } today).1 =
        (o.cancel_order today).1) := by
  refine ⟨cancel_order_succeeds_iff o today, ?_, ?_, ?_⟩
  · intro h
    unfold Order.cancel_order at h ⊢
    by_cases h1 : o.tickets.any (fun t => t.is_used) = true
    · rw [if_pos h1] at h
      exact absurd h (by simp)
    · by_cases h2 :
        o.tickets.any (fun t => decide (t.event_date < today)) = true
      · rw [if_neg h1, if_pos h2] at h
        exact absurd h (by simp)
      · rw [if_neg h1, if_neg h2]
  · intro h
    unfold Order.cancel_order at h ⊢
    by_cases h1 : o.tickets.any (fun t => t.is_used) = true
    · rw [if_pos h1]
    · by_cases h2 :
        o.tickets.any (fun t => decide (t.event_date < today)) = true
      · rw [if_neg h1, if_pos h2]
      · rw [if_neg h1, if_neg h2] at h
        exact absurd h (by simp)
  · intro s
    unfold Order.cancel_order
    cases h1 : o.tickets.any (fun t => t.is_used) with
    | true => simp [h1]
    | false =>
      cases h2 : o.tickets.any (fun t => decide (t.event_date < today)) with
      | true => simp [h1, h2]
      | false => simp [h1, h2]

/-- Witness for C2: the Confirmed order with one unused future-dated
ticket cancels to Cancelled; the order with a used ticket fails and is
unchanged. -/
theorem cancel_order_spec_witness :
    (confirmedOrder.cancel_order 5).2 =
      { confirmedOrder with status := OrderStatus.CANCELLED } ∧
    (usedTicketOrder.cancel_order 5).2 = usedTicketOrder :=
  ⟨(cancel_order_spec confirmedOrder 5).2.1 rfl,
   (cancel_order_spec usedTicketOrder 5).2.2.1 rfl⟩
/-- Helper for C3: one `add_ticket` / `remove_ticket` call preserves the
identity between the stored total and the recomputed total. -/
theorem applyOrderOp_preserves_total (o : Order) (op : OrderOp)
    (h : o.total_amount = o.calculate_total) :
    (applyOrderOp o op).total_amount = (applyOrderOp o op).calculate_total := by
  cases op with
  | add t =>
    simp only [applyOrderOp, Order.add_ticket]
    by_cases hs : o.status = OrderStatus.CONFIRMED
    · rw [if_pos hs]
      exact h
    · rw [if_neg hs]
      rfl
  | remove tid =>
    simp only [applyOrderOp, Order.remove_ticket]
    by_cases hs : o.status = OrderStatus.CONFIRMED
    · rw [if_pos hs]
      exact h
    · rw [if_neg hs]
      cases removeFirstTicket tid o.tickets with
      | some ts => rfl
      | none => exact h

/-- Helper for C3: the invariant is preserved along any call sequence. -/
theorem applyOrderOps_preserves_total (ops : List OrderOp) :
    ∀ o : Order, o.total_amount = o.calculate_total →
      (applyOrderOps ops o).total_amount =
        (applyOrderOps ops o).calculate_total := by
  induction ops with
  | nil => exact fun o h => h
  | cons op ops ih =>
    intro o h
    exact ih (applyOrderOp o op) (applyOrderOp_preserves_total o op h)

/-- C3: starting from a freshly constructed order, after any sequence of
`add_ticket` / `remove_ticket` calls the stored `total_amount` equals
`calculate_total`, the sum of `calculate_price` over the current
tickets.  (From the initial Pending state these calls never reach the
Confirmed status, so the whole sequence runs while the order is not
Confirmed.) -/
theorem order_total_invariant (ops : List OrderOp) (order_id : String)
    (d : Date) :
    (applyOrderOps ops (Order.init order_id d)).total_amount =
      (applyOrderOps ops (Order.init order_id d)).calculate_total :=
  applyOrderOps_preserves_total ops (Order.init order_id d) rfl

/-- C4: the price of a season ticket is determined by the current length
of the included-races sequence, with inclusive lower tier bounds, and the
sample points of the spec evaluate as stated: base 1000 with 5, 10, 15
races gives 900, 800, 700; with 4 races 1000; with 14 races 800. -/
theorem seasonTicket_price_tiers :
    (∀ (tid : String) (base : ℚ) (d : Date) (vs : String) (y : Int)
       (races : List String) (rd : List Date),
       (15 ≤ races.length →
         Ticket.calculate_price (SeasonTicket.make tid base d vs y races rd) =
           base * 0.7) ∧
       (10 ≤ races.length → races.length ≤ 14 →
         Ticket.calculate_price (SeasonTicket.make tid base d vs y races rd) =
           base * 0.8) ∧
       (5 ≤ races.length → races.length ≤ 9 →
         Ticket.calculate_price (SeasonTicket.make tid base d vs y races rd) =
           base * 0.9) ∧
       (races.length < 5 →
         Ticket.calculate_price (SeasonTicket.make tid base d vs y races rd) =
           base)) ∧
    Ticket.calculate_price
      (SeasonTicket.make "TKT-2" 1000 0 "VIP" 2025 (List.replicate 5 "R") [])
      = 900 ∧
    Ticket.calculate_price
      (SeasonTicket.make "TKT-2" 1000 0 "VIP" 2025 (List.replicate 10 "R") [])
      = 800 ∧
    Ticket.calculate_price
      (SeasonTicket.make "TKT-2" 1000 0 "VIP" 2025 (List.replicate 15 "R") [])
      = 700 ∧
    Ticket.calculate_price
      (SeasonTicket.make "TKT-2" 1000 0 "VIP" 2025 (List.replicate 4 "R") [])
      = 1000 ∧
    Ticket.calculate_price
      (SeasonTicket.make "TKT-2" 1000 0 "VIP" 2025 (List.replicate 14 "R") [])
      = 800 := by
  constructor
  · intro tid base d vs y races rd
    simp only [SeasonTicket.make, Ticket.calculate_price]
    refine ⟨fun h15 => ?_, fun h10 h14 => ?_, fun h5 h9 => ?_, fun h4 => ?_⟩
    · rw [if_pos h15]
    · rw [if_neg (by omega), if_pos h10]
    · rw [if_neg (by omega), if_neg (by omega), if_pos h5]
    · rw [if_neg (by omega), if_neg (by omega), if_neg (by omega)]
  · refine ⟨?_, ?_, ?_, ?_, ?_⟩ <;>
      norm_num [Ticket.calculate_price, SeasonTicket.make]

/-- Witness for C4: one instantiation per tier, each hypothesis
discharged on a concrete included-races sequence. -/
theorem seasonTicket_price_tiers_witness :
    Ticket.calculate_price
      (SeasonTicket.make "W4" 600 0 "S" 2024 (List.replicate 16 "R") [])
      = 600 * 0.7 ∧
    Ticket.calculate_price
      (SeasonTicket.make "W4" 600 0 "S" 2024 (List.replicate 12 "R") [])
      = 600 * 0.8 ∧
    Ticket.calculate_price
      (SeasonTicket.make "W4" 600 0 "S" 2024 (List.replicate 7 "R") [])
      = 600 * 0.9 ∧
    Ticket.calculate_price
      (SeasonTicket.make "W4" 600 0 "S" 2024 (List.replicate 2 "R") [])
      = 600 :=
  ⟨(seasonTicket_price_tiers.1 "W4" 600 0 "S" 2024
      (List.replicate 16 "R") []).1 (by simp),
   (seasonTicket_price_tiers.1 "W4" 600 0 "S" 2024
      (List.replicate 12 "R") []).2.1 (by simp) (by simp),
   (seasonTicket_price_tiers.1 "W4" 600 0 "S" 2024
      (List.replicate 7 "R") []).2.2.1 (by simp) (by simp),
   (seasonTicket_price_tiers.1 "W4" 600 0 "S" 2024
      (List.replicate 2 "R") []).2.2.2 (by simp)⟩

/-- Counterexample for C5: constructing a ticket with base price -5
succeeds and stores the negative price — the non-negativity invariant is
not enforced at construction, contrary to the claim that such a
construction is rejected. -/
theorem ticket_negative_price_construction_ce :
    (SingleRaceTicket.make "TKT-N" (-5) 0 "Main" "GP"
      RaceCategory.STANDARD).price = -5 ∧
    ¬ 0 ≤ (SingleRaceTicket.make "TKT-N" (-5) 0 "Main" "GP"
      RaceCategory.STANDARD).price :=
  ⟨rfl, by norm_num [SingleRaceTicket.make]⟩

/-- C5 (amended): `set_price` rejects a negative value with an error and
leaves the prior price unchanged, and accepts any non-negative value;
the constructor, however, performs no validation and stores even a
negative base price. -/
theorem set_price_validation :
    (∀ (t : Ticket) (p : ℚ), p < 0 →
      t.set_price p = Except.error "Price cannot be negative") ∧
    (∀ (t : Ticket) (p : ℚ), 0 ≤ p →
      t.set_price p = Except.ok { t with price := p }) ∧
    (SingleRaceTicket.make "TKT-N" (-5) 0 "Main" "GP"
      RaceCategory.STANDARD).price = -5 := by
  refine ⟨fun t p hp => ?_, fun t p hp => ?_, rfl⟩
  · unfold Ticket.set_price
    rw [if_pos hp]
  · unfold Ticket.set_price
    rw [if_neg (not_lt.mpr hp)]

/-- Witness for C5: both `set_price` branches at concrete inputs. -/
theorem set_price_validation_witness :
    sampleTicket.set_price (-1) =
      Except.error "Price cannot be negative" ∧
    sampleTicket.set_price 3 = Except.ok { sampleTicket with price := 3 } :=
  ⟨set_price_validation.1 sampleTicket (-1) (by norm_num),
   set_price_validation.2.1 sampleTicket 3 (by norm_num)⟩

/-- Counterexample for C6: constructing a single-race ticket with a
category that is none of Premium, Standard, Economy succeeds — the
stored category is the bogus value — and `calculate_price` silently
prices it like Economy (200 × 0.9 = 180), instead of the construction
failing. -/
theorem singleRace_bogus_category_ce :
    (SingleRaceTicket.make "TKT-X" 200 0 "Main" "GP"
      (RaceCategory.other "Bogus")).get_race_category =
        some (RaceCategory.other "Bogus") ∧
    Ticket.calculate_price (SingleRaceTicket.make "TKT-X" 200 0 "Main" "GP"
      (RaceCategory.other "Bogus")) = 180 :=
  ⟨rfl, by norm_num [SingleRaceTicket.make, Ticket.calculate_price]⟩

/-- C6 (amended): construction performs no category validation — any
category value is stored as given — and a value other than Premium and
Standard (in particular an unrecognized one) is priced through the
Economy branch at base × 0.9. -/
theorem singleRace_unrecognized_category :
    ∀ (tid : String) (base : ℚ) (d : Date) (vs rn s : String),
      (SingleRaceTicket.make tid base d vs rn
        (RaceCategory.other s)).get_race_category =
          some (RaceCategory.other s) ∧
      Ticket.calculate_price (SingleRaceTicket.make tid base d vs rn
        (RaceCategory.other s)) = base * 0.9 :=
  fun _tid _base _d _vs _rn _s => ⟨rfl, rfl⟩

/-- Counterexample for C7: constructing a user with a 3-character
password and an email without the at sign succeeds, and `create_user`
inserts exactly that user into the repository — no `InvalidArgument`
error is raised at creation, contrary to the claim. -/
theorem user_no_construction_validation_ce :
    (User.init "USR-X" "bob" "abc" "nomail" none).password.length < 6 ∧
    (User.init "USR-X" "bob" "abc" "nomail" none).email.data.contains '@'
      = false ∧
    emptySystem.create_user "USR-X" "bob" "abc" "nomail" none =
      Except.ok
        ({ emptySystem with
           users := [("bob", User.init "USR-X" "bob" "abc" "nomail" none)] },
         User.init "USR-X" "bob" "abc" "nomail" none) :=
  ⟨by decide, by decide, rfl⟩

/-- C7 (amended): the password and email rules are enforced only by the
setters `set_password` and `set_email`, which fail with an error and
leave the prior value unchanged; the constructor (used by `create_user`)
stores any password and email unvalidated. -/
theorem user_validation_in_setters :
    (∀ (uid un pw em : String) (ph : Option String),
      (User.init uid un pw em ph).password = pw ∧
      (User.init uid un pw em ph).email = em) ∧
    (∀ (u : User) (p : String), p.length < 6 →
      u.set_password p =
        Except.error "Password must be at least 6 characters long") ∧
    (∀ (u : User) (p : String), 6 ≤ p.length →
      u.set_password p = Except.ok { u with password := p }) ∧
    (∀ (u : User) (e : String), e.data.contains '@' = false →
      u.set_email e = Except.error "Invalid email format") ∧
    (∀ (u : User) (e : String), e.data.contains '@' = true →
      u.set_email e = Except.ok { u with email := e }) := by
  refine ⟨fun uid un pw em ph => ⟨rfl, rfl⟩,
    fun u p hp => ?_, fun u p hp => ?_, fun u e he => ?_, fun u e he => ?_⟩
  · unfold User.set_password
    rw [if_pos hp]
  · unfold User.set_password
    rw [if_neg (not_lt.mpr hp)]
  · unfold User.set_email
    rw [if_neg (by simpa using he)]
  · unfold User.set_email
    rw [if_pos he]

/-- Witness for C7: all four setter branches at concrete inputs. -/
theorem user_validation_in_setters_witness :
    (User.init "U0" "u0" "secret" "a@b" none).set_password "abc" =
      Except.error "Password must be at least 6 characters long" ∧
    (User.init "U0" "u0" "secret" "a@b" none).set_password "longenough" =
      Except.ok
        { User.init "U0" "u0" "secret" "a@b" none with
          password := "longenough" } ∧
    (User.init "U0" "u0" "secret" "a@b" none).set_email "nomail" =
      Except.error "Invalid email format" ∧
    (User.init "U0" "u0" "secret" "a@b" none).set_email "x@y" =
      Except.ok
        { User.init "U0" "u0" "secret" "a@b" none with email := "x@y" } :=
  ⟨user_validation_in_setters.2.1 (User.init "U0" "u0" "secret" "a@b" none)
      "abc" (by decide),
   user_validation_in_setters.2.2.1 (User.init "U0" "u0" "secret" "a@b" none)
      "longenough" (by decide),
   user_validation_in_setters.2.2.2.1
      (User.init "U0" "u0" "secret" "a@b" none) "nomail" (by decide),
   user_validation_in_setters.2.2.2.2
      (User.init "U0" "u0" "secret" "a@b" none) "x@y" (by decide)⟩

/-- Counterexample for C8: for a user whose id attribute (USR-001)
differs from their username (john_doe), the order created by
`create_order` carries the username, not the user id — the claim that
the order is linked to the user id fails. -/
theorem create_order_links_username_ce :
    (emptySystem.create_order 0 johnDoe).2.1.user_id = some "john_doe" ∧
    johnDoe.user_id = "USR-001" ∧
    (emptySystem.create_order 0 johnDoe).2.1.user_id ≠
      some johnDoe.user_id :=
  ⟨rfl, rfl, by decide⟩

/-- C8 (amended): `create_order` allocates the id
ORD-(order count + 1) — so the order count grows by one per call and a
second call allocates ORD-(order count + 2), giving strictly increasing
sequential ids regardless of the statuses of existing orders — and the
new order is Pending, dated today, linked to the USERNAME of the user,
appended to the order history of the user, and inserted into the order
mapping. -/
theorem create_order_spec (bs : BookingSystem) (today : Date) (u : User) :
    (bs.create_order today u).2.1.order_id =
      "ORD-" ++ toString (bs.orders.length + 1) ∧
    (bs.create_order today u).2.1.status = OrderStatus.PENDING ∧
    (bs.create_order today u).2.1.order_date = today ∧
    (bs.create_order today u).2.1.user_id = some u.username ∧
    (bs.create_order today u).2.2.orders =
      u.orders ++ [(bs.create_order today u).2.1.order_id] ∧
    (bs.create_order today u).1.orders =
      bs.orders ++
        [((bs.create_order today u).2.1.order_id,
          (bs.create_order today u).2.1)] ∧
    (bs.create_order today u).1.orders.length = bs.orders.length + 1 ∧
    ((bs.create_order today u).1.create_order today u).2.1.order_id =
      "ORD-" ++ toString (bs.orders.length + 2) := by
  refine ⟨rfl, rfl, rfl, rfl, rfl, rfl, ?_, ?_⟩
  · simp [BookingSystem.create_order]
  · simp only [BookingSystem.create_order, Order.init]
    norm_num

/-- C9: saving the four collections and loading them back restores
exactly the collections present at save time (the durable objects all
exist after a save, so the default-admin seeding branch is not taken). -/
theorem save_load_round_trip (bs : BookingSystem) :
    (bs.load_data bs.save_data).users = bs.users ∧
    (bs.load_data bs.save_data).admins = bs.admins ∧
    (bs.load_data bs.save_data).tickets = bs.tickets ∧
    (bs.load_data bs.save_data).orders = bs.orders :=
  ⟨rfl, rfl, rfl, rfl⟩

/-- C10: the stored `total_amount` is untouched by in-place mutation of
a ticket shared with the order (first conjunct, for any order and any
replacement), so after mutating the season ticket of `seasonOrder` —
growing its race list to fifteen races, or repricing it to 2000 — the
stored total is still 900 while `calculate_total` has become 700
(resp. 1800), and the two agree again after the next
`add_ticket` call. -/
theorem total_amount_frame :
    (∀ (o : Order) (i : ℕ) (t : Ticket),
      (o.mutateTicket i t).total_amount = o.total_amount) ∧
    seasonOrder.total_amount = 900 ∧
    seasonOrder.calculate_total = 900 ∧
    seasonOrderGrown.total_amount = 900 ∧
    seasonOrderGrown.calculate_total = 700 ∧
    seasonOrderGrown.total_amount ≠ seasonOrderGrown.calculate_total ∧
    seasonOrderRepriced.total_amount = 900 ∧
    seasonOrderRepriced.calculate_total = 1800 ∧
    (applyOrderOp seasonOrderGrown (OrderOp.add sampleTicket)).total_amount =
      (applyOrderOp seasonOrderGrown
        (OrderOp.add sampleTicket)).calculate_total := by
  have h2 : seasonOrder.total_amount = 900 := by
    rw [show seasonOrder.total_amount =
      Order.calculate_total
        { Order.init "ORD-1" 0 with tickets := [seasonFive] } from rfl]
    norm_num [Order.calculate_total, Order.init, Ticket.calculate_price,
      seasonFive, SeasonTicket.make]
  have h3 : seasonOrder.calculate_total = 900 := by
    rw [show seasonOrder.calculate_total =
      Order.calculate_total
        { Order.init "ORD-1" 0 with tickets := [seasonFive] } from rfl]
    norm_num [Order.calculate_total, Order.init, Ticket.calculate_price,
      seasonFive, SeasonTicket.make]
  have h4 : seasonOrderGrown.total_amount = 900 := by
    rw [show seasonOrderGrown.total_amount = seasonOrder.total_amount
      from rfl]
    exact h2
  have h5 : seasonOrderGrown.calculate_total = 700 := by
    rw [show seasonOrderGrown.calculate_total =
      Order.calculate_total
        { Order.init "ORD-1" 0 with
          tickets :=
            [seasonFive.set_included_races (List.replicate 15 "Race")] }
      from rfl]
    norm_num [Order.calculate_total, Order.init, Ticket.calculate_price,
      Ticket.set_included_races, seasonFive, SeasonTicket.make]
  have h6 : seasonOrderGrown.total_amount ≠
      seasonOrderGrown.calculate_total := by
    rw [h4, h5]
    norm_num
  have h7 : seasonOrderRepriced.total_amount = 900 := by
    rw [show seasonOrderRepriced.total_amount = seasonOrder.total_amount
      from rfl]
    exact h2
  have h8 : seasonOrderRepriced.calculate_total = 1800 := by
    rw [show seasonOrderRepriced.calculate_total =
      Order.calculate_total
        { Order.init "ORD-1" 0 with
          tickets :=
            [match seasonFive.set_price 2000 with
             | .ok t => t
             | .error _ => seasonFive] }
      from rfl]
    norm_num [Order.calculate_total, Order.init, Ticket.calculate_price,
      Ticket.set_price, seasonFive, SeasonTicket.make]
  have h9 : (applyOrderOp seasonOrderGrown
        (OrderOp.add sampleTicket)).total_amount =
      (applyOrderOp seasonOrderGrown
        (OrderOp.add sampleTicket)).calculate_total := rfl
  exact ⟨fun o i t => rfl, h2, h3, h4, h5, h6, h7, h8, h9⟩

end GrandPrix
